import Mathlib

/-!
Verification development for the ad9081-support repository, centred on the
transmit-path mode-arbitration protocol exercised by
src/libiio_examples/processed_patch_test/ad9081_processed_test.c.

The repository ships only the test program; the kernel driver under test is
external. The device model below is therefore the transition system pinned
down by the test's TEST_ASSERT expectations (every asserted attribute write
result, attribute read-back and DAC control-register value), and the theorem
about run_main proves that the model passes every assertion of the embedded
main trace. Where the test leaves a flag unobserved, the model follows the
specification's own stipulation for that flag: in particular, raw_requested
records the caller's most recent "raw" attribute write and is never silently
rewritten by the driver (spec section 3, and section 4: "closing does not
restore raw_requested to any default").
-/

/-- NUM_TX_CH from ad9081_processed_test.c: number of Tx I/Q channel pairs. -/
def NUM_TX_CH : Nat := 8

/-- DAC_CH_REG_BASE from ad9081_processed_test.c. -/
def DAC_CH_REG_BASE : Nat := 0x400

/-- DAC_CH_REG_STEP from ad9081_processed_test.c. -/
def DAC_CH_REG_STEP : Nat := 0x40

/-- DAC_CH_CTRL_OFFSET from ad9081_processed_test.c. -/
def DAC_CH_CTRL_OFFSET : Nat := 0x18

/-- Register address computed by get_dac_reg (line 79 of the test):
DAC_CH_REG_BASE + ch * DAC_CH_REG_STEP + reg. -/
def dac_reg_addr (ch reg : Nat) : Nat :=
  DAC_CH_REG_BASE + ch * DAC_CH_REG_STEP + reg

/-- Observable state of the AD9081 Tx path as exercised by the test program.
The test drives the whole device through channel 0's attributes, and every
register check loops over all NUM_TX_CH * 2 I/Q sub-channel control registers,
so the mode flags are device-wide while the control registers are listed per
sub-channel.
* raw_requested: last value written to the DDS "raw" attribute (lines 194,
  240, 328, 352 of the test);
* buffer_open: whether an iio buffer currently exists (created line 209,
  destroyed line 226);
* processed_enabled: value of the "input" attribute (written lines 213, 251,
  274; read back lines 182, 196, 215, ...);
* regs: the NUM_TX_CH * 2 DAC control registers read by get_dac_reg at offset
  DAC_CH_CTRL_OFFSET. -/
structure DeviceState where
  raw_requested : Bool
  buffer_open : Bool
  processed_enabled : Bool
  regs : List Nat
deriving DecidableEq

/-- Control-register read for sub-channel ch, as get_dac_reg(ch,
DAC_CH_CTRL_OFFSET) observes it. -/
def get_dac_reg (s : DeviceState) (ch : Nat) : Nat :=
  s.regs.getD ch 0

/-- Write of the DDS "raw" attribute (iio_channel_attr_write_bool(dds1_i,
"raw", v)). Behaviour pinned by the test: rejected with -EBUSY while
processed/input is enabled (lines 264-267, 352-355); otherwise it succeeds
and every control register becomes 0x3 (zero/quiesced) for raw = false
(lines 193-202, 239-248) and 0x0 (DDS) for raw = true (lines 327-336).
The register value while a buffer is open is not exercised by the test; the
DMA encoding 0x2 is used, matching the specification's table. The result
none models the -EBUSY return, with the device state unchanged. -/
def set_raw (s : DeviceState) (v : Bool) : Option DeviceState :=
  if s.processed_enabled then none
  else some { s with
    raw_requested := v,
    regs := List.replicate (NUM_TX_CH * 2)
      (if s.buffer_open then 0x2 else if v then 0x0 else 0x3) }

/-- Buffer creation (iio_device_create_buffer over all enabled Tx channels).
Behaviour pinned by the test: returns NULL while processed/input is enabled
(lines 269-271, 358-360); otherwise it succeeds and every control register
becomes 0x2 (DMA) (lines 204-223, 291-310). The result none models the NULL
buffer handle, with the device state unchanged. -/
def open_stream_buffer (s : DeviceState) : Option DeviceState :=
  if s.processed_enabled then none
  else some { s with
    buffer_open := true,
    regs := List.replicate (NUM_TX_CH * 2) 0x2 }

/-- Buffer destruction (iio_buffer_destroy). Behaviour pinned by the test:
it always completes, and afterwards every control register reads 0x0 (DDS)
regardless of the last "raw" write, which was false at both destruction
points (lines 225-231 and 312-318 assert 0x0 after a preceding raw = false). -/
def close_stream_buffer (s : DeviceState) : DeviceState :=
  { s with
    buffer_open := false,
    regs := List.replicate (NUM_TX_CH * 2) 0x0 }

/-- Write of the "input" (processed) attribute
(iio_channel_attr_write_bool(dac_i, "input", v)). Behaviour pinned by the
test: enabling is rejected with -EBUSY while a buffer is open (lines 212-217,
299-304); enabling succeeds otherwise and every control register becomes 0x2
(lines 250-261, 338-349); disabling always succeeds and every control
register becomes 0x0 (DDS) regardless of the stored raw value (lines 273-284
with raw last written false, lines 362-371 with raw last written true).
The result none models the -EBUSY return, with the device state unchanged. -/
def set_processed_input (s : DeviceState) (v : Bool) : Option DeviceState :=
  if v then
    if s.buffer_open then none
    else some { s with
      processed_enabled := true,
      regs := List.replicate (NUM_TX_CH * 2) 0x2 }
  else
    some { s with
      processed_enabled := false,
      regs := List.replicate (NUM_TX_CH * 2) 0x0 }

/-- The four arbiter operations, for stating properties quantified over
every operation. -/
inductive ArbOp where
  | setRaw (v : Bool)
  | openBuf
  | closeBuf
  | setInput (v : Bool)
deriving DecidableEq

/-- Device state after attempting an operation: a rejected (-EBUSY / NULL
buffer) attempt leaves the state unchanged. -/
def applyOp (s : DeviceState) : ArbOp → DeviceState
  | ArbOp.setRaw v => (set_raw s v).getD s
  | ArbOp.openBuf => (open_stream_buffer s).getD s
  | ArbOp.closeBuf => close_stream_buffer s
  | ArbOp.setInput v => (set_processed_input s v).getD s

/-- All NUM_TX_CH * 2 control registers hold a single common value. -/
def regsUniform (s : DeviceState) : Prop :=
  ∃ v, s.regs = List.replicate (NUM_TX_CH * 2) v

/-- Modelled from the spec: the section 4 register-encoding mapping table,
as a function of (raw_requested, buffer_open, processed_enabled). Rows:
(true, false, false) gives 0x0; (false, false, false) gives 0x3;
(false, true, false) gives 0x2; any state with processed_enabled gives 0x2.
The unlisted (true, true, false) combination is extrapolated to the DMA
encoding 0x2. -/
def specRegisterTable (raw buf inp : Bool) : Nat :=
  if inp then 0x2
  else if buf then 0x2
  else if raw then 0x0
  else 0x3

/-- Modelled from the spec: per-channel arbiter state for the grouped
open_stream_buffer of section 4, whose per-channel driver implementation is
not part of the repository sources (the test only ever toggles channel 0's
"input" attribute). -/
structure SpecChannel where
  raw_requested : Bool
  buffer_open : Bool
  processed_enabled : Bool
  register_value : Nat
deriving DecidableEq

/-- Modelled from the spec: open_stream_buffer over a channel set
(section 4): requests buffer_open = true for every channel atomically,
failing with Busy (a none buffer handle) and leaving every channel untouched
when any channel of the set has processed_enabled = true; on success every
channel's register becomes 0x2. -/
def spec_open_stream_buffer (chans : List SpecChannel) :
    Option Unit × List SpecChannel :=
  if chans.any (fun c => c.processed_enabled) then (none, chans)
  else (Option.some (), chans.map (fun c =>
    { c with buffer_open := true, register_value := 0x2 }))

/-- Scenario C of spec section 8: a group of 8 channels, 6 with
processed_enabled = false and 2 with processed_enabled = true. -/
def scenarioC_channels : List SpecChannel :=
  [SpecChannel.mk false false false 0x3,
   SpecChannel.mk true false false 0x0,
   SpecChannel.mk false false false 0x3,
   SpecChannel.mk true false false 0x0,
   SpecChannel.mk false false false 0x3,
   SpecChannel.mk false false false 0x3,
   SpecChannel.mk false false true 0x2,
   SpecChannel.mk true false true 0x2]

/-- The register check loop of the test (for i in 0 .. NUM_TX_CH*2-1,
TEST_ASSERT(get_dac_reg(i, DAC_CH_CTRL_OFFSET) == v)). -/
def check_regs (s : DeviceState) (v : Nat) : Bool :=
  (List.range (NUM_TX_CH * 2)).all (fun i => get_dac_reg s i == v)

/-- EXIT_FAILURE as used by main. -/
def EXIT_FAILURE : Int := 1

/-- Outcome of main: which exit path was taken, carrying the value of the
local variable ret at the final return (none = ret was never assigned, so
the returned exit code is an uninitialized value). -/
inductive MainOutcome where
  | success (ret : Option Int)
  | testFailure (ret : Option Int)
  | setupFailure (ret : Option Int)
deriving DecidableEq

/-- Outcome of the setup phase of main (lines 153-176): context creation,
device lookup, and channel loading are external collaborator calls; on
success the device is in some initial state s0. -/
inductive SetupResult where
  | noContext
  | deviceMissing
  | channelsMissing
  | ok (s0 : DeviceState)

/-- The TEST_ASSERT-checked body of main (lines 181-373 of
ad9081_processed_test.c), translated assertion by assertion. A failed
TEST_ASSERT does goto clean without assigning ret, hence testFailure none;
reaching the final "Test Completed Successfully!" falls through to clean
with ret still unassigned, hence success none. -/
def mainBody (s0 : DeviceState) : MainOutcome :=
  -- lines 181-184: verify Processed/Input is disabled to start
  if s0.processed_enabled then MainOutcome.testFailure none else
  -- lines 193-202: raw = 0 succeeds, input still false, all regs 0x3
  match set_raw s0 false with
  | none => MainOutcome.testFailure none
  | some s1 =>
  if s1.processed_enabled then MainOutcome.testFailure none else
  if !(check_regs s1 0x3) then MainOutcome.testFailure none else
  -- lines 204-210: DMA buffer creation succeeds
  match open_stream_buffer s1 with
  | none => MainOutcome.testFailure none
  | some s2 =>
  -- lines 212-217: input write rejected (-EBUSY), input still false
  match set_processed_input s2 true with
  | some _ => MainOutcome.testFailure none
  | none =>
  if s2.processed_enabled then MainOutcome.testFailure none else
  -- lines 219-223: all regs 0x2 (DMA)
  if !(check_regs s2 0x2) then MainOutcome.testFailure none else
  -- lines 225-231: destroy buffer, all regs 0x0
  match close_stream_buffer s2 with
  | s3 =>
  if !(check_regs s3 0x0) then MainOutcome.testFailure none else
  -- lines 239-248: raw = 0 succeeds, input false, all regs 0x3
  match set_raw s3 false with
  | none => MainOutcome.testFailure none
  | some s4 =>
  if s4.processed_enabled then MainOutcome.testFailure none else
  if !(check_regs s4 0x3) then MainOutcome.testFailure none else
  -- lines 250-255: enabling input succeeds, reads back true
  match set_processed_input s4 true with
  | none => MainOutcome.testFailure none
  | some s5 =>
  if !(s5.processed_enabled) then MainOutcome.testFailure none else
  -- lines 257-261: all regs 0x2
  if !(check_regs s5 0x2) then MainOutcome.testFailure none else
  -- lines 263-267: raw writes rejected (-EBUSY) both ways
  match set_raw s5 false with
  | some _ => MainOutcome.testFailure none
  | none =>
  match set_raw s5 true with
  | some _ => MainOutcome.testFailure none
  | none =>
  -- lines 269-271: buffer creation rejected (NULL)
  match open_stream_buffer s5 with
  | some _ => MainOutcome.testFailure none
  | none =>
  -- lines 273-278: disabling input succeeds, reads back false
  match set_processed_input s5 false with
  | none => MainOutcome.testFailure none
  | some s6 =>
  if s6.processed_enabled then MainOutcome.testFailure none else
  -- lines 280-284: all regs back to DDS 0x0
  if !(check_regs s6 0x0) then MainOutcome.testFailure none else
  -- lines 291-297: buffer creation succeeds again
  match open_stream_buffer s6 with
  | none => MainOutcome.testFailure none
  | some s7 =>
  -- lines 299-304: input write rejected, input still false
  match set_processed_input s7 true with
  | some _ => MainOutcome.testFailure none
  | none =>
  if s7.processed_enabled then MainOutcome.testFailure none else
  -- lines 306-310: all regs 0x2
  if !(check_regs s7 0x2) then MainOutcome.testFailure none else
  -- lines 312-318: destroy buffer, all regs 0x0
  match close_stream_buffer s7 with
  | s8 =>
  if !(check_regs s8 0x0) then MainOutcome.testFailure none else
  -- lines 327-336: raw = 1 succeeds, input false, all regs 0x0
  match set_raw s8 true with
  | none => MainOutcome.testFailure none
  | some s9 =>
  if s9.processed_enabled then MainOutcome.testFailure none else
  if !(check_regs s9 0x0) then MainOutcome.testFailure none else
  -- lines 338-343: enabling input succeeds, reads back true
  match set_processed_input s9 true with
  | none => MainOutcome.testFailure none
  | some s10 =>
  if !(s10.processed_enabled) then MainOutcome.testFailure none else
  -- lines 345-349: all regs 0x2
  if !(check_regs s10 0x2) then MainOutcome.testFailure none else
  -- lines 351-355: raw writes rejected both ways
  match set_raw s10 false with
  | some _ => MainOutcome.testFailure none
  | none =>
  match set_raw s10 true with
  | some _ => MainOutcome.testFailure none
  | none =>
  -- lines 358-360: buffer creation rejected (NULL)
  match open_stream_buffer s10 with
  | some _ => MainOutcome.testFailure none
  | none =>
  -- lines 362-371: disabling input succeeds, reads false, all regs 0x0
  match set_processed_input s10 false with
  | none => MainOutcome.testFailure none
  | some s11 =>
  if s11.processed_enabled then MainOutcome.testFailure none else
  if !(check_regs s11 0x0) then MainOutcome.testFailure none else
  -- line 373: Test Completed Successfully, fall through to clean;
  -- ret was never assigned on this path
  MainOutcome.success none

/-- main (lines 144-380): the setup failure paths assign ret = EXIT_FAILURE
before goto clean; the test body never assigns ret. -/
def run_main : SetupResult → MainOutcome
  | SetupResult.noContext => MainOutcome.setupFailure (some EXIT_FAILURE)
  | SetupResult.deviceMissing => MainOutcome.setupFailure (some EXIT_FAILURE)
  | SetupResult.channelsMissing => MainOutcome.setupFailure (some EXIT_FAILURE)
  | SetupResult.ok s0 => mainBody s0

/-- Elements of a replicated list read back as the replicated value. -/
theorem replicate_getD (n i v d : Nat) (h : i < n) :
    (List.replicate n v).getD i d = v := by
  induction n generalizing i with
  | zero => exact absurd h (Nat.not_lt_zero i)
  | succ n ih =>
    cases i with
    | zero => simp [List.replicate]
    | succ i =>
      simp only [List.replicate, List.getD_cons_succ]
      exact ih i (Nat.lt_of_succ_lt_succ h)

/-- C10: when every test assertion passes, control falls through to the
clean label and main returns the local ret without it ever having been
assigned on the all-success path (outcome success none, an uninitialized
exit code), whereas the setup failure paths do assign ret = EXIT_FAILURE. -/
theorem C10_ret_uninitialized_on_success : ∀ s0 : DeviceState,
    s0.processed_enabled = false → s0.buffer_open = false →
    run_main (SetupResult.ok s0) = MainOutcome.success none
    ∧ run_main SetupResult.noContext
      = MainOutcome.setupFailure (some EXIT_FAILURE) := by
  intro s0 h1 h2
  obtain ⟨r, b, p, rg⟩ := s0
  cases p with
  | true => simp at h1
  | false =>
    cases b with
    | true => simp at h2
    | false => exact ⟨rfl, rfl⟩

/-- C10 witness: a concrete initial device state (processed disabled, no
buffer, arbitrary registers) on which the whole test passes and main
returns an unassigned ret. -/
theorem C10_witness :
    (DeviceState.mk true false false []).processed_enabled = false
    ∧ (DeviceState.mk true false false []).buffer_open = false
    ∧ run_main (SetupResult.ok (DeviceState.mk true false false []))
        = MainOutcome.success none :=
  ⟨rfl, rfl, (C10_ret_uninitialized_on_success _ rfl rfl).1⟩

/-- C1 counterexample: starting from a table-consistent quiesced state
(raw_requested = false, registers 0x3), opening and then closing a stream
buffer — exactly the test's lines 193-231 — leaves all three flags at
(false, false, false) while every control register reads 0x0, whereas the
mapping table gives 0x3 for that flag combination; the register has drifted
from the pure function of the flags. -/
theorem C1_register_drifts_cex :
    Option.map close_stream_buffer
      (open_stream_buffer
        (DeviceState.mk false false false (List.replicate (NUM_TX_CH * 2) 0x3)))
      = some (DeviceState.mk false false false
          (List.replicate (NUM_TX_CH * 2) 0x0))
    ∧ get_dac_reg
        (DeviceState.mk false false false
          (List.replicate (NUM_TX_CH * 2) 0x0)) 0 = 0x0
    ∧ specRegisterTable false false false = 0x3 := by decide

/-- C1 (amended): the control registers match the mapping-table function of
the flags after every successful set_raw, open_stream_buffer and
set_processed_input(true); but close_stream_buffer and
set_processed_input(false) force the registers to 0x0 (DDS) regardless of
the stored raw_requested, so the register is not a pure function of the
three flags alone. -/
theorem C1_register_vs_table : ∀ (s : DeviceState) (v : Bool),
    (∀ s', set_raw s v = some s' →
      s'.regs = List.replicate (NUM_TX_CH * 2)
        (specRegisterTable s'.raw_requested s'.buffer_open s'.processed_enabled))
    ∧ (∀ s', open_stream_buffer s = some s' →
      s'.regs = List.replicate (NUM_TX_CH * 2)
        (specRegisterTable s'.raw_requested s'.buffer_open s'.processed_enabled))
    ∧ (∀ s', set_processed_input s true = some s' →
      s'.regs = List.replicate (NUM_TX_CH * 2)
        (specRegisterTable s'.raw_requested s'.buffer_open s'.processed_enabled))
    ∧ (close_stream_buffer s).regs = List.replicate (NUM_TX_CH * 2) 0x0
    ∧ (∀ s', set_processed_input s false = some s' →
      s'.regs = List.replicate (NUM_TX_CH * 2) 0x0) := by
  intro s v
  obtain ⟨r, b, p, rg⟩ := s
  refine ⟨?_, ?_, ?_, rfl, ?_⟩
  · intro s' h
    cases p <;> cases b <;> cases v <;>
      simp [set_raw, specRegisterTable] at h ⊢ <;>
      (subst h; rfl)
  · intro s' h
    cases p <;> cases b <;>
      simp [open_stream_buffer, specRegisterTable] at h ⊢ <;>
      (subst h; rfl)
  · intro s' h
    cases p <;> cases b <;>
      simp [set_processed_input, specRegisterTable] at h ⊢ <;>
      (subst h; rfl)
  · intro s' h
    simp [set_processed_input] at h
    subst h; rfl

/-- C1 witness: a successful set_raw(false) from the DDS baseline lands on
registers matching the mapping table. -/
theorem C1_witness :
    set_raw (DeviceState.mk true false false
        (List.replicate (NUM_TX_CH * 2) 0x0)) false
      = some (DeviceState.mk false false false
          (List.replicate (NUM_TX_CH * 2) 0x3))
    ∧ (DeviceState.mk false false false
        (List.replicate (NUM_TX_CH * 2) 0x3)).regs
      = List.replicate (NUM_TX_CH * 2) (specRegisterTable false false false) :=
  ⟨rfl, (C1_register_vs_table
      (DeviceState.mk true false false (List.replicate (NUM_TX_CH * 2) 0x0))
      false).1 _ rfl⟩

/-- C2 counterexample: closing the buffer on a channel whose last set_raw
was false (the test's state at lines 225-231) leaves every control register
at 0x0, not at the mapping-table value 0x3 claimed for
(raw_requested = false, buffer_open = false). -/
theorem C2_close_register_cex :
    close_stream_buffer
      (DeviceState.mk false true false (List.replicate (NUM_TX_CH * 2) 0x2))
      = DeviceState.mk false false false (List.replicate (NUM_TX_CH * 2) 0x0)
    ∧ get_dac_reg
        (close_stream_buffer
          (DeviceState.mk false true false
            (List.replicate (NUM_TX_CH * 2) 0x2))) 0 = 0x0
    ∧ specRegisterTable false false false = 0x3 := by decide

/-- C2 (amended): close_stream_buffer always succeeds, clears buffer_open,
preserves the stored raw_requested, and forces every control register to 0x0
(DDS) regardless of that stored raw_requested — in particular a channel
whose last set_raw was false reads 0x0, not 0x3, after the close. -/
theorem C2_close_buffer_thm : ∀ s : DeviceState,
    (close_stream_buffer s).buffer_open = false
    ∧ (close_stream_buffer s).raw_requested = s.raw_requested
    ∧ (close_stream_buffer s).processed_enabled = s.processed_enabled
    ∧ (close_stream_buffer s).regs = List.replicate (NUM_TX_CH * 2) 0x0 := by
  intro s
  exact ⟨rfl, rfl, rfl, rfl⟩

/-- C3 counterexample: disabling processed/input on a channel with
raw_requested = false and buffer_open = false (the test's state at lines
273-284) succeeds but leaves every control register at 0x0, not at the
mapping-table value 0x3 claimed for that flag combination. -/
theorem C3_disable_register_cex :
    set_processed_input
      (DeviceState.mk false false true (List.replicate (NUM_TX_CH * 2) 0x2))
      false
      = some (DeviceState.mk false false false
          (List.replicate (NUM_TX_CH * 2) 0x0))
    ∧ specRegisterTable false false false = 0x3 := by decide

/-- C3 (amended): set_processed_input(channel, false) never fails, clears
processed_enabled, preserves raw_requested and buffer_open, and forces every
control register to 0x0 (DDS) regardless of the stored raw_requested — so
the raw_requested = true case yields 0x0 as claimed, but the
raw_requested = false case also yields 0x0, not 0x3. -/
theorem C3_disable_processed_thm : ∀ s : DeviceState,
    ∃ s', set_processed_input s false = some s'
    ∧ s'.processed_enabled = false
    ∧ s'.raw_requested = s.raw_requested
    ∧ s'.buffer_open = s.buffer_open
    ∧ s'.regs = List.replicate (NUM_TX_CH * 2) 0x0 := by
  intro s
  exact ⟨_, rfl, rfl, rfl, rfl, rfl⟩

/-- C4: while a buffer is open (and hence, in every state the test reaches,
processed_enabled is false and all registers read 0x2), enabling
processed/input returns Busy, the device state is unchanged by the attempt,
processed_enabled stays false, and every register stays 0x2. -/
theorem C4_enable_while_buffer_busy : ∀ s : DeviceState,
    s.buffer_open = true → s.processed_enabled = false →
    s.regs = List.replicate (NUM_TX_CH * 2) 0x2 →
    set_processed_input s true = none
    ∧ applyOp s (ArbOp.setInput true) = s
    ∧ (applyOp s (ArbOp.setInput true)).processed_enabled = false
    ∧ (applyOp s (ArbOp.setInput true)).regs
      = List.replicate (NUM_TX_CH * 2) 0x2 := by
  intro s hb hp hr
  have h1 : set_processed_input s true = none := by
    simp [set_processed_input, hb]
  refine ⟨h1, ?_, ?_, ?_⟩ <;> simp [applyOp, h1, hp, hr]

/-- C4 witness: the DMA-mode state of the test (buffer open, registers 0x2)
rejects the processed/input enable and is left unchanged. -/
theorem C4_witness :
    (DeviceState.mk false true false
      (List.replicate (NUM_TX_CH * 2) 0x2)).buffer_open = true
    ∧ set_processed_input
        (DeviceState.mk false true false
          (List.replicate (NUM_TX_CH * 2) 0x2)) true = none
    ∧ applyOp
        (DeviceState.mk false true false
          (List.replicate (NUM_TX_CH * 2) 0x2)) (ArbOp.setInput true)
      = DeviceState.mk false true false
          (List.replicate (NUM_TX_CH * 2) 0x2) :=
  ⟨rfl, (C4_enable_while_buffer_busy _ rfl rfl rfl).1,
    (C4_enable_while_buffer_busy _ rfl rfl rfl).2.1⟩

/-- C5: grouped buffer opening is all-or-nothing — when any channel of the
set has processed_enabled = true, spec_open_stream_buffer returns a none
(null) buffer handle and the whole channel list, including the channels with
processed_enabled = false, is returned unchanged. -/
theorem C5_open_group_atomic : ∀ chans : List SpecChannel,
    chans.any (fun c => c.processed_enabled) = true →
    spec_open_stream_buffer chans = (none, chans) := by
  intro chans h
  simp [spec_open_stream_buffer, h]

/-- C5 witness: Scenario C — of 8 channels, 2 have processed_enabled = true;
the grouped open fails with a null handle and no channel is touched. -/
theorem C5_witness :
    scenarioC_channels.any (fun c => c.processed_enabled) = true
    ∧ spec_open_stream_buffer scenarioC_channels = (none, scenarioC_channels) :=
  ⟨by decide, C5_open_group_atomic scenarioC_channels (by decide)⟩

/-- C6: while processed_enabled = true, set_raw returns Busy for both
requested values and the device state — raw_requested and registers
included — is unchanged by the attempt. -/
theorem C6_set_raw_busy : ∀ (s : DeviceState) (v : Bool),
    s.processed_enabled = true →
    set_raw s v = none ∧ applyOp s (ArbOp.setRaw v) = s := by
  intro s v hp
  have h1 : set_raw s v = none := by simp [set_raw, hp]
  exact ⟨h1, by simp [applyOp, h1]⟩

/-- C6 witness: the processed-mode state of the test (input enabled,
registers 0x2) rejects raw writes of both polarities. -/
theorem C6_witness :
    (DeviceState.mk true false true
      (List.replicate (NUM_TX_CH * 2) 0x2)).processed_enabled = true
    ∧ set_raw (DeviceState.mk true false true
        (List.replicate (NUM_TX_CH * 2) 0x2)) false = none
    ∧ set_raw (DeviceState.mk true false true
        (List.replicate (NUM_TX_CH * 2) 0x2)) true = none :=
  ⟨rfl, (C6_set_raw_busy _ false rfl).1, (C6_set_raw_busy _ true rfl).1⟩

/-- C7: with no buffer open, enabling processed/input succeeds from any
state — in particular from both register baselines 0x0 (raw_requested =
true) and 0x3 (raw_requested = false) — sets processed_enabled, preserves
raw_requested, and forces every control register to 0x2. -/
theorem C7_enable_processed_ok : ∀ s : DeviceState,
    s.buffer_open = false →
    ∃ s', set_processed_input s true = some s'
    ∧ s'.processed_enabled = true
    ∧ s'.raw_requested = s.raw_requested
    ∧ s'.buffer_open = false
    ∧ s'.regs = List.replicate (NUM_TX_CH * 2) 0x2 := by
  intro s hb
  have h1 : set_processed_input s true
      = some { s with
          processed_enabled := true,
          regs := List.replicate (NUM_TX_CH * 2) 0x2 } := by
    simp [set_processed_input, hb]
  exact ⟨_, h1, rfl, rfl, hb, rfl⟩

/-- C7 witness: enabling processed/input succeeds from both the 0x0
(raw = true) and the 0x3 (raw = false) baselines of the test. -/
theorem C7_witness :
    (DeviceState.mk true false false
      (List.replicate (NUM_TX_CH * 2) 0x0)).buffer_open = false
    ∧ (∃ s', set_processed_input
        (DeviceState.mk true false false
          (List.replicate (NUM_TX_CH * 2) 0x0)) true = some s'
      ∧ s'.processed_enabled = true
      ∧ s'.raw_requested = true
      ∧ s'.buffer_open = false
      ∧ s'.regs = List.replicate (NUM_TX_CH * 2) 0x2)
    ∧ (DeviceState.mk false false false
        (List.replicate (NUM_TX_CH * 2) 0x3)).buffer_open = false
    ∧ (∃ s', set_processed_input
        (DeviceState.mk false false false
          (List.replicate (NUM_TX_CH * 2) 0x3)) true = some s'
      ∧ s'.processed_enabled = true
      ∧ s'.raw_requested = false
      ∧ s'.buffer_open = false
      ∧ s'.regs = List.replicate (NUM_TX_CH * 2) 0x2) :=
  ⟨rfl, C7_enable_processed_ok _ rfl, rfl, C7_enable_processed_ok _ rfl⟩

/-- C8: once the blocking flag is cleared by its owner, a previously
Busy-rejected request succeeds — after set_processed_input(false) clears
processed_enabled, open_stream_buffer succeeds and opens the buffer, and
after close_stream_buffer clears buffer_open, set_processed_input(true)
succeeds and enables processed mode. -/
theorem C8_retry_after_clear : ∀ s : DeviceState,
    (∃ s2, open_stream_buffer ((set_processed_input s false).getD s) = some s2
      ∧ s2.buffer_open = true)
    ∧ (∃ s3, set_processed_input (close_stream_buffer s) true = some s3
      ∧ s3.processed_enabled = true) := by
  intro s
  exact ⟨⟨_, rfl, rfl⟩, ⟨_, rfl, rfl⟩⟩

/-- Every operation attempt, successful or Busy-rejected, keeps the
NUM_TX_CH * 2 control registers uniform. -/
theorem regsUniform_applyOp : ∀ (s : DeviceState) (op : ArbOp),
    regsUniform s → regsUniform (applyOp s op) := by
  intro s op h
  obtain ⟨r, b, p, rg⟩ := s
  obtain ⟨v, hv⟩ := h
  cases op with
  | setRaw w =>
    cases p
    · exact ⟨_, rfl⟩
    · exact ⟨v, hv⟩
  | openBuf =>
    cases p
    · exact ⟨_, rfl⟩
    · exact ⟨v, hv⟩
  | closeBuf => exact ⟨_, rfl⟩
  | setInput w =>
    cases w
    · exact ⟨_, rfl⟩
    · cases b
      · exact ⟨_, rfl⟩
      · exact ⟨v, hv⟩

/-- C9: although every mode request is issued through channel 0's
attributes, after every operation all NUM_TX_CH * 2 I/Q sub-channel control
registers hold the same value — the registers of distinct sub-channels never
diverge, so the mode state is device-wide. -/
theorem C9_regs_never_diverge : ∀ (s : DeviceState) (op : ArbOp),
    regsUniform s →
    ∀ i j, i < NUM_TX_CH * 2 → j < NUM_TX_CH * 2 →
      get_dac_reg (applyOp s op) i = get_dac_reg (applyOp s op) j := by
  intro s op h i j hi hj
  obtain ⟨v, hv⟩ := regsUniform_applyOp s op h
  unfold get_dac_reg
  rw [hv, replicate_getD (NUM_TX_CH * 2) i v 0 hi,
    replicate_getD (NUM_TX_CH * 2) j v 0 hj]

/-- C9 witness: after opening a buffer from the quiesced state, the first
and the sixteenth sub-channel control registers agree. -/
theorem C9_witness :
    regsUniform (DeviceState.mk false false false
      (List.replicate (NUM_TX_CH * 2) 0x3))
    ∧ get_dac_reg
        (applyOp (DeviceState.mk false false false
          (List.replicate (NUM_TX_CH * 2) 0x3)) ArbOp.openBuf) 0
      = get_dac_reg
          (applyOp (DeviceState.mk false false false
            (List.replicate (NUM_TX_CH * 2) 0x3)) ArbOp.openBuf) 15 :=
  ⟨⟨0x3, rfl⟩, C9_regs_never_diverge _ ArbOp.openBuf ⟨0x3, rfl⟩ 0 15
    (by decide) (by decide)⟩
